import Mathlib

/-!
Verification of the bind provisioning backend
(`src/slave/containerizer/provisioners/backends/bind.cpp`).

The backend provisions a container root filesystem by bind-mounting a single
layer path onto a rootfs path and remounting it read-only, and destroys it by
scanning the mount table for the first entry whose target equals the rootfs
path, unmounting it and removing the directory.

The embedding is a shallow one: each OS primitive the code calls
(`os::mkdir`, `fs::mount`, `fs::unmount`, `os::rmdir`,
`fs::MountInfoTable::read`, `os::user`) is an input supplied by an
environment record, and every operation returns its result together with the
ordered trace of OS actions it attempted, so frame conditions ("no unmount,
no rmdir happened") are statable as facts about the trace.
-/

namespace BindBackendSpec

/-- Linux mount flag `MS_RDONLY` (numeric value from `<sys/mount.h>`). -/
def MS_RDONLY : Nat := 1

/-- Linux mount flag `MS_REMOUNT`. -/
def MS_REMOUNT : Nat := 32

/-- Linux mount flag `MS_BIND`. -/
def MS_BIND : Nat := 4096

/-- Linux mount flag `MS_REC` (recursive bind); the code deliberately does
not pass it (see the TODO comment in `provision`). -/
def MS_REC : Nat := 16384

/-- One entry of `fs::MountInfoTable`. The code reads only the `target`
field (the mount point), so only that field is modelled. -/
structure MountInfoEntry where
  target : String
deriving DecidableEq, Repr

/-- `fs::MountInfoTable`: an ordered snapshot of the mount table. -/
structure MountInfoTable where
  entries : List MountInfoEntry
deriving DecidableEq, Repr

/-- An OS action attempted by the backend, in the order the code issues
them.  `mount` records the exact arguments passed to `fs::mount`:
source, target, filesystem type, flags, data. -/
inductive Action where
  | mkdir (path : String)
  | mount (source : Option String) (target : String)
      (fsType : Option String) (flags : Nat) (data : Option String)
  | unmount (target : String)
  | rmdir (path : String)
deriving DecidableEq, Repr

/-- `true` exactly on `Action.unmount`. -/
def Action.isUnmount : Action → Bool
  | Action.unmount _ => true
  | _ => false

/-- `true` exactly on `Action.rmdir`. -/
def Action.isRmdir : Action → Bool
  | Action.rmdir _ => true
  | _ => false

/-- The OS environment: the outcome of each primitive the backend calls.
`Except.ok ()` models `Try<Nothing>` success; `Except.error e` models a
failed `Try` carrying the OS error message `e`. -/
structure Env where
  mkdir : String → Except String Unit
  mount : Option String → String → Option String → Nat → Option String →
      Except String Unit
  unmount : String → Except String Unit
  rmdir : String → Except String Unit
  mountTable : Except String MountInfoTable

/-- `BindBackendProcess::provision(layers, rootfs)`.  Returns the result
(`Except.ok ()` mirrors `Nothing`, `Except.error` mirrors `Failure`) paired
with the ordered trace of OS actions attempted. -/
def provision (env : Env) (layers : List String) (rootfs : String) :
    Except String Unit × List Action :=
  if layers.length > 1 then
    (Except.error "Multiple layers are not supported by the bind backend", [])
  else if layers.length = 0 then
    (Except.error "No filesystem layer provided", [])
  else
    match env.mkdir rootfs with
    | Except.error _ =>
        (Except.error ("Failed to create container rootfs at " ++ rootfs),
         [Action.mkdir rootfs])
    | Except.ok _ =>
        let front := layers.headD ""
        match env.mount (some front) rootfs none MS_BIND none with
        | Except.error e =>
            (Except.error ("Failed to bind mount rootfs \x27" ++ front ++
                "\x27 to \x27" ++ rootfs ++ "\x27: " ++ e),
             [Action.mkdir rootfs,
              Action.mount (some front) rootfs none MS_BIND none])
        | Except.ok _ =>
            match env.mount none rootfs none
                (MS_BIND ||| MS_RDONLY ||| MS_REMOUNT) none with
            | Except.error e =>
                (Except.error ("Failed to remount rootfs \x27" ++ rootfs ++
                    "\x27 read-only: " ++ e),
                 [Action.mkdir rootfs,
                  Action.mount (some front) rootfs none MS_BIND none,
                  Action.mount none rootfs none
                    (MS_BIND ||| MS_RDONLY ||| MS_REMOUNT) none])
            | Except.ok _ =>
                (Except.ok (),
                 [Action.mkdir rootfs,
                  Action.mount (some front) rootfs none MS_BIND none,
                  Action.mount none rootfs none
                    (MS_BIND ||| MS_RDONLY ||| MS_REMOUNT) none])

/-- The body of the `foreach` loop in `BindBackendProcess::destroy`:
scan the remaining entries for the first whose `target` equals `rootfs`;
on a match, unmount it and remove the directory, returning `true`;
if the scan ends without a match, return `false`. -/
def destroyLoop (env : Env) (rootfs : String) :
    List MountInfoEntry → Except String Bool × List Action
  | [] => (Except.ok false, [])
  | entry :: rest =>
    if entry.target = rootfs then
      match env.unmount entry.target with
      | Except.error e =>
          (Except.error ("Failed to destroy bind-mounted rootfs \x27" ++
              rootfs ++ "\x27: " ++ e),
           [Action.unmount entry.target])
      | Except.ok _ =>
          match env.rmdir rootfs with
          | Except.error e =>
              (Except.error ("Failed to remove rootfs mount point \x27" ++
                  rootfs ++ "\x27: " ++ e),
               [Action.unmount entry.target, Action.rmdir rootfs])
          | Except.ok _ =>
              (Except.ok true,
               [Action.unmount entry.target, Action.rmdir rootfs])
    else
      destroyLoop env rootfs rest

/-- `BindBackendProcess::destroy(rootfs)`: read the mount table, then run
the scan loop over its entries in order. -/
def destroy (env : Env) (rootfs : String) : Except String Bool × List Action :=
  match env.mountTable with
  | Except.error e =>
      (Except.error ("Failed to read mount table: " ++ e), [])
  | Except.ok table => destroyLoop env rootfs table.entries

/-- The effect of `destroy` once a matching entry has been selected
(unmount it, then rmdir the rootfs).  Used to characterise `destroy` as
"act on the first entry whose target equals the rootfs". -/
def actOnEntry (env : Env) (rootfs : String) (entry : MountInfoEntry) :
    Except String Bool × List Action :=
  match env.unmount entry.target with
  | Except.error e =>
      (Except.error ("Failed to destroy bind-mounted rootfs \x27" ++
          rootfs ++ "\x27: " ++ e),
       [Action.unmount entry.target])
  | Except.ok _ =>
      match env.rmdir rootfs with
      | Except.error e =>
          (Except.error ("Failed to remove rootfs mount point \x27" ++
              rootfs ++ "\x27: " ++ e),
           [Action.unmount entry.target, Action.rmdir rootfs])
      | Except.ok _ =>
          (Except.ok true, [Action.unmount entry.target, Action.rmdir rootfs])

/-- `Result<string>` as returned by `os::user()`: some value, no value
(user id has no name), or an error. -/
inductive OsUserResult where
  | some (user : String)
  | none
  | error (msg : String)
deriving DecidableEq, Repr

/-- The spawned executor actor (`BindBackendProcess`); carries no data in
the model. -/
structure BindBackendProcess where
deriving DecidableEq, Repr

/-- The backend handle holding its executor, as constructed by
`BindBackend::create` on success. -/
structure BindBackend where
  process : BindBackendProcess
deriving DecidableEq, Repr

/-- `BindBackend::create(flags)`: require that `os::user()` resolves and
names `root`; otherwise fail without constructing a backend (and hence
without spawning its executor). -/
def create (user : OsUserResult) : Except String BindBackend :=
  match user with
  | OsUserResult.error e =>
      Except.error ("Failed to determine user: " ++ e)
  | OsUserResult.none =>
      Except.error ("Failed to determine user: " ++ "username not found")
  | OsUserResult.some u =>
      if u ≠ "root" then Except.error "BindBackend requires root privileges"
      else Except.ok ⟨⟨⟩⟩

/-! ### Serial execution of dispatched operations -/

/-- An operation dispatched to the backend: `BindBackend::provision` or
`BindBackend::destroy`. -/
inductive Op where
  | prov (layers : List String) (rootfs : String)
  | dest (rootfs : String)
deriving DecidableEq, Repr

/-- The OS-action trace produced by running one dispatched operation to
completion on the executor. -/
def runOp (env : Env) : Op → List Action
  | Op.prov layers rootfs => (provision env layers rootfs).2
  | Op.dest rootfs => (destroy env rootfs).2

/-- Modelled from the spec: the libprocess actor behind
`BindBackendProcess` (the `process::dispatch` runtime, which is not under
`src/`) executes dispatched operations one at a time in submission order.
The executor state is the queue of pending operations plus the remaining
actions of the operation currently being executed; each step either
performs the next action of the current operation or, only when the
current operation is finished, dequeues the next one. -/
def runMachine (env : Env) : List Op → List Action → List Action
  | ops, a :: cur => a :: runMachine env ops cur
  | op :: ops, [] => runMachine env ops (runOp env op)
  | [], [] => []
termination_by ops cur => (ops.length, cur.length)

/-! ### Substring occurrence, for statements about failure messages -/

/-- `prefAt needle hay`: `needle` is a prefix of `hay` (on `Char` lists). -/
def prefAt : List Char → List Char → Bool
  | [], _ => true
  | _ :: _, [] => false
  | a :: as, b :: bs => a == b && prefAt as bs

/-- `occursIn needle hay`: `needle` occurs contiguously inside `hay`. -/
def occursIn (needle : List Char) : List Char → Bool
  | [] => needle.isEmpty
  | c :: rest => prefAt needle (c :: rest) || occursIn needle rest

/-- The string `needle` occurs contiguously inside `haystack`. -/
def strContains (haystack needle : String) : Prop :=
  occursIn needle.data haystack.data = true

instance (haystack needle : String) : Decidable (strContains haystack needle) :=
  inferInstanceAs (Decidable (occursIn needle.data haystack.data = true))

/-! ### Concrete environments used by witnesses and counterexamples -/

/-- An environment in which every OS primitive succeeds and the mount
table snapshot is `table`. -/
def envAllOk (table : MountInfoTable) : Env :=
  { mkdir := fun _ => Except.ok ()
    mount := fun _ _ _ _ _ => Except.ok ()
    unmount := fun _ => Except.ok ()
    rmdir := fun _ => Except.ok ()
    mountTable := Except.ok table }

/-- An environment in which `os::mkdir` fails with `EACCES` and everything
else succeeds. -/
def envMkdirFail : Env :=
  { envAllOk ⟨[]⟩ with mkdir := fun _ => Except.error "EACCES" }

/-- An environment in which only the remount (`fs::mount` with
`MS_REMOUNT` among the flags) fails, with `EBUSY`. -/
def envRemountFail : Env :=
  { envAllOk ⟨[]⟩ with
    mount := fun _ _ _ flags _ =>
      if flags &&& MS_REMOUNT ≠ 0 then Except.error "EBUSY"
      else Except.ok () }

/-- An environment in which the first bind mount (`fs::mount` without
`MS_REMOUNT`) fails with `ENOENT`. -/
def envBindFail : Env :=
  { envAllOk ⟨[]⟩ with
    mount := fun _ _ _ flags _ =>
      if flags &&& MS_REMOUNT = 0 then Except.error "ENOENT"
      else Except.ok () }

/-- An environment in which reading the mount table fails with `EIO`. -/
def envTableFail : Env :=
  { envAllOk ⟨[]⟩ with mountTable := Except.error "EIO" }

/-- An environment with a matching mount entry whose unmount fails with
`EBUSY`. -/
def envUnmountFail : Env :=
  { envAllOk ⟨[⟨"/r"⟩]⟩ with unmount := fun _ => Except.error "EBUSY" }

/-- An environment with a matching mount entry whose `os::rmdir` fails
with `ENOTEMPTY`. -/
def envRmdirFail : Env :=
  { envAllOk ⟨[⟨"/r"⟩]⟩ with rmdir := fun _ => Except.error "ENOTEMPTY" }

/-- A mount-table snapshot with a sub-mount of `/r`, an unrelated entry,
and two entries whose target is exactly `/r`. -/
def tableMulti : MountInfoTable :=
  ⟨[⟨"/r/sub"⟩, ⟨"/x"⟩, ⟨"/r"⟩, ⟨"/r"⟩]⟩

/-- A mount-table snapshot holding only entries unrelated to `/r`:
one different path and one proper sub-mount of `/r`. -/
def tableAbsent : MountInfoTable :=
  ⟨[⟨"/x"⟩, ⟨"/r/sub"⟩]⟩

/-! ## Helper lemmas -/

/-- When no entry of the list matches, the scan loop returns `false` with
an empty action trace. -/
theorem destroyLoop_no_match (env : Env) (rootfs : String) :
    ∀ entries : List MountInfoEntry, (∀ e ∈ entries, e.target ≠ rootfs) →
      destroyLoop env rootfs entries = (Except.ok false, [])
  | [], _ => rfl
  | entry :: rest, h => by
      unfold destroyLoop
      rw [if_neg (h entry (List.mem_cons_self _ _))]
      exact destroyLoop_no_match env rootfs rest
        (fun e he => h e (List.mem_cons_of_mem _ he))

/-- The scan loop acts exactly on the first entry (in list order) whose
target equals the rootfs, as selected by `List.find?`. -/
theorem destroyLoop_eq_find (env : Env) (rootfs : String) :
    ∀ entries : List MountInfoEntry,
      destroyLoop env rootfs entries =
        match entries.find? (fun e => e.target == rootfs) with
        | Option.none => (Except.ok false, [])
        | Option.some entry => actOnEntry env rootfs entry
  | [] => rfl
  | entry :: rest => by
      by_cases h : entry.target = rootfs
      · simp [destroyLoop, List.find?, h, actOnEntry]
      · simp [destroyLoop, List.find?, h, beq_eq_false_iff_ne.mpr h,
          destroyLoop_eq_find env rootfs rest]

/-- Non-matching entries at the front of the snapshot are skipped by the
scan loop. -/
theorem destroyLoop_append_skip (env : Env) (rootfs : String) :
    ∀ pre rest : List MountInfoEntry, (∀ e ∈ pre, e.target ≠ rootfs) →
      destroyLoop env rootfs (pre ++ rest) = destroyLoop env rootfs rest
  | [], _, _ => rfl
  | entry :: pre, rest, h => by
      rw [List.cons_append]
      conv_lhs => rw [destroyLoop]
      rw [if_neg (h entry (List.mem_cons_self _ _))]
      exact destroyLoop_append_skip env rootfs pre rest
        (fun e he => h e (List.mem_cons_of_mem _ he))

/-- `prefAt` decides list-prefix. -/
theorem prefAt_iff : ∀ n h : List Char, prefAt n h = true ↔ ∃ t, h = n ++ t
  | [], h => by simp [prefAt]
  | a :: as, [] => by simp [prefAt]
  | a :: as, b :: bs => by
      simp only [prefAt, Bool.and_eq_true, beq_iff_eq, prefAt_iff as bs,
        List.cons_append, List.cons_eq_cons]
      constructor
      · rintro ⟨rfl, t, rfl⟩
        exact ⟨t, rfl, rfl⟩
      · rintro ⟨t, rfl, rfl⟩
        exact ⟨rfl, t, rfl⟩

/-- `occursIn` decides contiguous-sublist occurrence. -/
theorem occursIn_iff (n : List Char) :
    ∀ h : List Char, occursIn n h = true ↔ ∃ p q, h = p ++ n ++ q
  | [] => by
      simp only [occursIn, List.isEmpty_iff]
      constructor
      · rintro rfl
        exact ⟨[], [], rfl⟩
      · rintro ⟨p, q, hpq⟩
        rcases List.append_eq_nil.mp (List.append_eq_nil.mp hpq.symm).1
          with ⟨-, hn⟩
        exact hn
  | c :: rest => by
      simp only [occursIn, Bool.or_eq_true, prefAt_iff, occursIn_iff n rest]
      constructor
      · rintro (⟨t, ht⟩ | ⟨p, q, hpq⟩)
        · exact ⟨[], t, by simpa using ht⟩
        · exact ⟨c :: p, q, by simp [hpq]⟩
      · rintro ⟨p, q, hpq⟩
        cases p with
        | nil => exact Or.inl ⟨q, by simpa using hpq⟩
        | cons x p2 =>
            rcases List.cons_eq_cons.mp (by simpa using hpq) with ⟨-, h2⟩
            exact Or.inr ⟨p2, q, by rw [List.append_assoc]; exact h2⟩

/-- Running the executor with pending actions first drains those actions,
then continues with the queue. -/
theorem runMachine_drain (env : Env) (ops : List Op) :
    ∀ cur : List Action, runMachine env ops cur = cur ++ runMachine env ops []
  | [] => by simp
  | a :: cur => by
      rw [runMachine, runMachine_drain env ops cur]
      simp

/-- A needle placed between two other strings occurs in the whole. -/
theorem strContains_mid (a b c : String) : strContains (a ++ b ++ c) b :=
  (occursIn_iff b.data (a ++ b ++ c).data).mpr ⟨a.data, c.data, by simp⟩

/-! ## Claims -/

/-- C1: if the mount-table snapshot read by `destroy` contains no entry
whose target equals the rootfs path, `destroy` returns `false` — not an
error — and performs no filesystem mutation: its OS-action trace is empty
(in particular no unmount and no rmdir). -/
theorem destroy_absent_noop (env : Env) (table : MountInfoTable)
    (rootfs : String)
    (hread : env.mountTable = Except.ok table)
    (hnone : ∀ e ∈ table.entries, e.target ≠ rootfs) :
    destroy env rootfs = (Except.ok false, []) := by
  simp only [destroy, hread]
  exact destroyLoop_no_match env rootfs table.entries hnone

/-- Witness for the claim about destroy on an absent mount, at snapshot
`tableAbsent` and rootfs `/r`. -/
theorem destroy_absent_noop_witness :
    (envAllOk tableAbsent).mountTable = Except.ok tableAbsent ∧
    (∀ e ∈ tableAbsent.entries, e.target ≠ "/r") ∧
    destroy (envAllOk tableAbsent) "/r" = (Except.ok false, []) :=
  ⟨rfl, by decide,
   destroy_absent_noop (envAllOk tableAbsent) tableAbsent "/r" rfl (by decide)⟩

/-- C2: provisioning a single layer performs, in order, exactly these OS
actions: create the rootfs directory, bind-mount the layer path onto the
rootfs read-write (flags exactly `MS_BIND`, which carries neither the
read-only bit nor the recursive `MS_REC` bit, and requests no shared
propagation), then remount the same target in place with
`MS_BIND | MS_RDONLY | MS_REMOUNT`; on success the result carries no
payload. -/
theorem provision_single_layer_steps (env : Env) (layer rootfs : String)
    (hmkdir : env.mkdir rootfs = Except.ok ())
    (hbind : env.mount (some layer) rootfs none MS_BIND none = Except.ok ())
    (hremount : env.mount none rootfs none
        (MS_BIND ||| MS_RDONLY ||| MS_REMOUNT) none = Except.ok ()) :
    provision env [layer] rootfs =
      (Except.ok (),
       [Action.mkdir rootfs,
        Action.mount (some layer) rootfs none MS_BIND none,
        Action.mount none rootfs none
          (MS_BIND ||| MS_RDONLY ||| MS_REMOUNT) none]) ∧
    MS_BIND &&& MS_RDONLY = 0 ∧ MS_BIND &&& MS_REC = 0 := by
  refine ⟨?_, by decide, by decide⟩
  simp [provision, hmkdir, hbind, hremount]

/-- Witness: the three provisioning steps at layer `/l`, rootfs `/r`, in an
environment where every primitive succeeds. -/
theorem provision_single_layer_steps_witness :
    provision (envAllOk ⟨[]⟩) ["/l"] "/r" =
      (Except.ok (),
       [Action.mkdir "/r",
        Action.mount (some "/l") "/r" none MS_BIND none,
        Action.mount none "/r" none
          (MS_BIND ||| MS_RDONLY ||| MS_REMOUNT) none]) ∧
    MS_BIND &&& MS_RDONLY = 0 ∧ MS_BIND &&& MS_REC = 0 :=
  provision_single_layer_steps (envAllOk ⟨[]⟩) "/l" "/r" rfl rfl rfl

/-- C3: provision rejects an empty layer list with the failure
"No filesystem layer provided" and rejects a list of two or more layers
with "Multiple layers are not supported by the bind backend", in every
environment, for every rootfs and for arbitrary layer contents. -/
theorem provision_layer_count_rejected (env : Env) (rootfs : String) :
    provision env [] rootfs =
      (Except.error "No filesystem layer provided", []) ∧
    ∀ l1 l2 rest, provision env (l1 :: l2 :: rest) rootfs =
      (Except.error "Multiple layers are not supported by the bind backend",
       []) := by
  refine ⟨rfl, fun l1 l2 rest => ?_⟩
  unfold provision
  rw [if_pos (by simp)]

/-- C9: when the layer count is invalid (zero layers, or two or more),
provision performs no OS action at all — the count check precedes the
rootfs directory creation, so not even `mkdir` is attempted. -/
theorem provision_invalid_count_no_mutation (env : Env) (rootfs : String) :
    (provision env [] rootfs).2 = [] ∧
    ∀ l1 l2 rest, (provision env (l1 :: l2 :: rest) rootfs).2 = [] := by
  refine ⟨rfl, fun l1 l2 rest => ?_⟩
  unfold provision
  rw [if_pos (by simp)]

/-- C4: if the read-only remount fails, provision fails with the remount
failure message (a `MountFailed`-class error carrying the target and the
cause), and its trace consists of the mkdir, the read-write bind mount and
the attempted remount only — no unmount, no rmdir, no other rollback
action. -/
theorem provision_remount_failure_no_rollback (env : Env)
    (layer rootfs e : String)
    (hmkdir : env.mkdir rootfs = Except.ok ())
    (hbind : env.mount (some layer) rootfs none MS_BIND none = Except.ok ())
    (hremount : env.mount none rootfs none
        (MS_BIND ||| MS_RDONLY ||| MS_REMOUNT) none = Except.error e) :
    provision env [layer] rootfs =
      (Except.error ("Failed to remount rootfs \x27" ++ rootfs ++
          "\x27 read-only: " ++ e),
       [Action.mkdir rootfs,
        Action.mount (some layer) rootfs none MS_BIND none,
        Action.mount none rootfs none
          (MS_BIND ||| MS_RDONLY ||| MS_REMOUNT) none]) ∧
    ∀ a ∈ (provision env [layer] rootfs).2,
      a.isUnmount = false ∧ a.isRmdir = false := by
  have h : provision env [layer] rootfs =
      (Except.error ("Failed to remount rootfs \x27" ++ rootfs ++
          "\x27 read-only: " ++ e),
       [Action.mkdir rootfs,
        Action.mount (some layer) rootfs none MS_BIND none,
        Action.mount none rootfs none
          (MS_BIND ||| MS_RDONLY ||| MS_REMOUNT) none]) := by
    simp [provision, hmkdir, hbind, hremount]
  refine ⟨h, ?_⟩
  rw [h]
  intro a ha
  simp only [List.mem_cons, List.not_mem_nil, or_false] at ha
  rcases ha with rfl | rfl | rfl <;> exact ⟨rfl, rfl⟩

/-- Witness: a failed remount (`EBUSY`) in `envRemountFail` at layer `/l`,
rootfs `/r`, leaving the mkdir and read-write bind mount in place. -/
theorem provision_remount_failure_no_rollback_witness :
    provision envRemountFail ["/l"] "/r" =
      (Except.error ("Failed to remount rootfs \x27" ++ "/r" ++
          "\x27 read-only: " ++ "EBUSY"),
       [Action.mkdir "/r",
        Action.mount (some "/l") "/r" none MS_BIND none,
        Action.mount none "/r" none
          (MS_BIND ||| MS_RDONLY ||| MS_REMOUNT) none]) ∧
    ∀ a ∈ (provision envRemountFail ["/l"] "/r").2,
      a.isUnmount = false ∧ a.isRmdir = false :=
  provision_remount_failure_no_rollback envRemountFail "/l" "/r" "EBUSY"
    rfl rfl rfl

/-- C5: destroy acts on the first entry of the snapshot, in order, whose
target is exactly string-equal to the rootfs path — the `List.find?`
selection under the predicate `target == rootfs` — and an entry whose
target merely extends the rootfs path as a proper prefix (a sub-mount) is
never the selected entry. -/
theorem destroy_first_exact_match (env : Env) (rootfs : String)
    (table : MountInfoTable)
    (hread : env.mountTable = Except.ok table) :
    destroy env rootfs =
      (match table.entries.find? (fun e => e.target == rootfs) with
       | Option.none => (Except.ok false, [])
       | Option.some entry => actOnEntry env rootfs entry) ∧
    ∀ sub : MountInfoEntry, prefAt rootfs.data sub.target.data = true →
      sub.target ≠ rootfs →
      table.entries.find? (fun e => e.target == rootfs) ≠ Option.some sub := by
  constructor
  · simp only [destroy, hread]
    exact destroyLoop_eq_find env rootfs table.entries
  · intro sub _ hne hfind
    exact hne (by simpa using List.find?_some hfind)

/-- Witness: on the snapshot `tableMulti` (a `/r/sub` sub-mount first, an
unrelated entry, then two `/r` entries) destroy at rootfs `/r` selects the
first exact `/r` entry and acts on it. -/
theorem destroy_first_exact_match_witness :
    destroy (envAllOk tableMulti) "/r" =
      (match tableMulti.entries.find? (fun e => e.target == "/r") with
       | Option.none => (Except.ok false, [])
       | Option.some entry => actOnEntry (envAllOk tableMulti) "/r" entry) ∧
    tableMulti.entries.find? (fun e => e.target == "/r") ≠
      Option.some ⟨"/r/sub"⟩ := by
  have h := destroy_first_exact_match (envAllOk tableMulti) "/r" tableMulti rfl
  exact ⟨h.1, h.2 ⟨"/r/sub"⟩ (by decide) (by decide)⟩

/-- C10: destroy unmounts and removes at most one entry per call: with the
snapshot split as `pre ++ entry :: post` where nothing in `pre` matches and
`entry` matches, a successful unmount and rmdir make destroy return `true`
at once with exactly one unmount action in its trace, whatever `post`
holds — further entries with the same target are left untouched. -/
theorem destroy_at_most_one_unmount (env : Env) (rootfs : String)
    (pre post : List MountInfoEntry) (entry : MountInfoEntry)
    (hread : env.mountTable = Except.ok ⟨pre ++ entry :: post⟩)
    (hpre : ∀ e ∈ pre, e.target ≠ rootfs)
    (hmatch : entry.target = rootfs)
    (hunmount : env.unmount entry.target = Except.ok ())
    (hrmdir : env.rmdir rootfs = Except.ok ()) :
    destroy env rootfs =
      (Except.ok true, [Action.unmount rootfs, Action.rmdir rootfs]) ∧
    (destroy env rootfs).2.countP (fun a => a.isUnmount) = 1 := by
  have h : destroy env rootfs =
      (Except.ok true, [Action.unmount rootfs, Action.rmdir rootfs]) := by
    simp only [destroy, hread]
    rw [destroyLoop_append_skip env rootfs pre (entry :: post) hpre]
    unfold destroyLoop
    rw [if_pos hmatch, hunmount, hmatch, hrmdir]
  refine ⟨h, ?_⟩
  rw [h]
  simp [Action.isUnmount]

/-- Witness for single-unmount destroy: on `tableMulti` (which holds two
`/r` entries) destroy returns `true` with one unmount and one rmdir. -/
theorem destroy_at_most_one_unmount_witness :
    destroy (envAllOk tableMulti) "/r" =
      (Except.ok true, [Action.unmount "/r", Action.rmdir "/r"]) ∧
    (destroy (envAllOk tableMulti) "/r").2.countP (fun a => a.isUnmount)
      = 1 :=
  destroy_at_most_one_unmount (envAllOk tableMulti) "/r"
    [⟨"/r/sub"⟩, ⟨"/x"⟩] [⟨"/r"⟩] ⟨"/r"⟩ rfl (by decide) rfl rfl rfl

/-- C6 fails as stated on the directory-creation path: with `os::mkdir`
failing with `EACCES`, provision's failure message names the target path
but does not contain the underlying OS error at all. -/
theorem provision_mkdir_message_lacks_cause :
    (provision envMkdirFail ["/l"] "/r").1 =
      Except.error "Failed to create container rootfs at /r" ∧
    strContains "Failed to create container rootfs at /r" "/r" ∧
    ¬ strContains "Failed to create container rootfs at /r" "EACCES" :=
  ⟨rfl, by decide, by decide⟩

/-- C6 amended: every failure of provision or destroy names the path(s)
involved, and every failure other than rootfs directory creation also
carries the original OS error message; the directory-creation failure
message carries only the target path. -/
theorem failure_messages_paths_and_causes
    (env1 env2 env3 env4 env5 env6 : Env) (layer rootfs : String)
    (e1 e2 e3 e4 e5 e6 : String) (entry5 entry6 : MountInfoEntry)
    (h1 : env1.mkdir rootfs = Except.error e1)
    (h2a : env2.mkdir rootfs = Except.ok ())
    (h2b : env2.mount (some layer) rootfs none MS_BIND none =
      Except.error e2)
    (h3a : env3.mkdir rootfs = Except.ok ())
    (h3b : env3.mount (some layer) rootfs none MS_BIND none = Except.ok ())
    (h3c : env3.mount none rootfs none
      (MS_BIND ||| MS_RDONLY ||| MS_REMOUNT) none = Except.error e3)
    (h4 : env4.mountTable = Except.error e4)
    (h5a : env5.mountTable = Except.ok ⟨[entry5]⟩)
    (h5b : entry5.target = rootfs)
    (h5c : env5.unmount rootfs = Except.error e5)
    (h6a : env6.mountTable = Except.ok ⟨[entry6]⟩)
    (h6b : entry6.target = rootfs)
    (h6c : env6.unmount rootfs = Except.ok ())
    (h6d : env6.rmdir rootfs = Except.error e6) :
    ((provision env1 [layer] rootfs).1 =
        Except.error ("Failed to create container rootfs at " ++ rootfs) ∧
      strContains ("Failed to create container rootfs at " ++ rootfs)
        rootfs) ∧
    ((provision env2 [layer] rootfs).1 =
        Except.error ("Failed to bind mount rootfs \x27" ++ layer ++
          "\x27 to \x27" ++ rootfs ++ "\x27: " ++ e2) ∧
      strContains ("Failed to bind mount rootfs \x27" ++ layer ++
        "\x27 to \x27" ++ rootfs ++ "\x27: " ++ e2) layer ∧
      strContains ("Failed to bind mount rootfs \x27" ++ layer ++
        "\x27 to \x27" ++ rootfs ++ "\x27: " ++ e2) rootfs ∧
      strContains ("Failed to bind mount rootfs \x27" ++ layer ++
        "\x27 to \x27" ++ rootfs ++ "\x27: " ++ e2) e2) ∧
    ((provision env3 [layer] rootfs).1 =
        Except.error ("Failed to remount rootfs \x27" ++ rootfs ++
          "\x27 read-only: " ++ e3) ∧
      strContains ("Failed to remount rootfs \x27" ++ rootfs ++
        "\x27 read-only: " ++ e3) rootfs ∧
      strContains ("Failed to remount rootfs \x27" ++ rootfs ++
        "\x27 read-only: " ++ e3) e3) ∧
    ((destroy env4 rootfs).1 =
        Except.error ("Failed to read mount table: " ++ e4) ∧
      strContains ("Failed to read mount table: " ++ e4) e4) ∧
    ((destroy env5 rootfs).1 =
        Except.error ("Failed to destroy bind-mounted rootfs \x27" ++
          rootfs ++ "\x27: " ++ e5) ∧
      strContains ("Failed to destroy bind-mounted rootfs \x27" ++
        rootfs ++ "\x27: " ++ e5) rootfs ∧
      strContains ("Failed to destroy bind-mounted rootfs \x27" ++
        rootfs ++ "\x27: " ++ e5) e5) ∧
    ((destroy env6 rootfs).1 =
        Except.error ("Failed to remove rootfs mount point \x27" ++
          rootfs ++ "\x27: " ++ e6) ∧
      strContains ("Failed to remove rootfs mount point \x27" ++
        rootfs ++ "\x27: " ++ e6) rootfs ∧
      strContains ("Failed to remove rootfs mount point \x27" ++
        rootfs ++ "\x27: " ++ e6) e6) := by
  refine ⟨⟨?_, ?_⟩, ⟨?_, ?_, ?_, ?_⟩, ⟨?_, ?_, ?_⟩, ⟨?_, ?_⟩,
    ⟨?_, ?_, ?_⟩, ⟨?_, ?_, ?_⟩⟩
  · simp [provision, h1]
  · simpa using strContains_mid "Failed to create container rootfs at "
      rootfs ""
  · simp [provision, h2a, h2b]
  · simpa [String.append_assoc] using strContains_mid
      "Failed to bind mount rootfs \x27" layer
      ("\x27 to \x27" ++ rootfs ++ "\x27: " ++ e2)
  · simpa [String.append_assoc] using strContains_mid
      ("Failed to bind mount rootfs \x27" ++ layer ++ "\x27 to \x27")
      rootfs ("\x27: " ++ e2)
  · simpa [String.append_assoc] using strContains_mid
      ("Failed to bind mount rootfs \x27" ++ layer ++ "\x27 to \x27" ++
        rootfs ++ "\x27: ") e2 ""
  · simp [provision, h3a, h3b, h3c]
  · simpa [String.append_assoc] using strContains_mid
      "Failed to remount rootfs \x27" rootfs ("\x27 read-only: " ++ e3)
  · simpa [String.append_assoc] using strContains_mid
      ("Failed to remount rootfs \x27" ++ rootfs ++ "\x27 read-only: ")
      e3 ""
  · simp [destroy, h4]
  · simpa using strContains_mid "Failed to read mount table: " e4 ""
  · simp [destroy, h5a, destroyLoop, h5b, h5c]
  · simpa [String.append_assoc] using strContains_mid
      "Failed to destroy bind-mounted rootfs \x27" rootfs
      ("\x27: " ++ e5)
  · simpa [String.append_assoc] using strContains_mid
      ("Failed to destroy bind-mounted rootfs \x27" ++ rootfs ++
        "\x27: ") e5 ""
  · simp [destroy, h6a, destroyLoop, h6b, h6c, h6d]
  · simpa [String.append_assoc] using strContains_mid
      "Failed to remove rootfs mount point \x27" rootfs
      ("\x27: " ++ e6)
  · simpa [String.append_assoc] using strContains_mid
      ("Failed to remove rootfs mount point \x27" ++ rootfs ++
        "\x27: ") e6 ""

/-- Witness for the amended failure-message property at the six concrete
failing environments (`EACCES` mkdir, `ENOENT` bind mount, `EBUSY`
remount, `EIO` table read, `EBUSY` unmount, `ENOTEMPTY` rmdir), layer
`/l`, rootfs `/r`. -/
theorem failure_messages_paths_and_causes_witness :
    ((provision envMkdirFail ["/l"] "/r").1 =
        Except.error ("Failed to create container rootfs at " ++ "/r") ∧
      strContains ("Failed to create container rootfs at " ++ "/r")
        "/r") ∧
    ((provision envBindFail ["/l"] "/r").1 =
        Except.error ("Failed to bind mount rootfs \x27" ++ "/l" ++
          "\x27 to \x27" ++ "/r" ++ "\x27: " ++ "ENOENT") ∧
      strContains ("Failed to bind mount rootfs \x27" ++ "/l" ++
        "\x27 to \x27" ++ "/r" ++ "\x27: " ++ "ENOENT") "/l" ∧
      strContains ("Failed to bind mount rootfs \x27" ++ "/l" ++
        "\x27 to \x27" ++ "/r" ++ "\x27: " ++ "ENOENT") "/r" ∧
      strContains ("Failed to bind mount rootfs \x27" ++ "/l" ++
        "\x27 to \x27" ++ "/r" ++ "\x27: " ++ "ENOENT") "ENOENT") ∧
    ((provision envRemountFail ["/l"] "/r").1 =
        Except.error ("Failed to remount rootfs \x27" ++ "/r" ++
          "\x27 read-only: " ++ "EBUSY") ∧
      strContains ("Failed to remount rootfs \x27" ++ "/r" ++
        "\x27 read-only: " ++ "EBUSY") "/r" ∧
      strContains ("Failed to remount rootfs \x27" ++ "/r" ++
        "\x27 read-only: " ++ "EBUSY") "EBUSY") ∧
    ((destroy envTableFail "/r").1 =
        Except.error ("Failed to read mount table: " ++ "EIO") ∧
      strContains ("Failed to read mount table: " ++ "EIO") "EIO") ∧
    ((destroy envUnmountFail "/r").1 =
        Except.error ("Failed to destroy bind-mounted rootfs \x27" ++
          "/r" ++ "\x27: " ++ "EBUSY") ∧
      strContains ("Failed to destroy bind-mounted rootfs \x27" ++
        "/r" ++ "\x27: " ++ "EBUSY") "/r" ∧
      strContains ("Failed to destroy bind-mounted rootfs \x27" ++
        "/r" ++ "\x27: " ++ "EBUSY") "EBUSY") ∧
    ((destroy envRmdirFail "/r").1 =
        Except.error ("Failed to remove rootfs mount point \x27" ++
          "/r" ++ "\x27: " ++ "ENOTEMPTY") ∧
      strContains ("Failed to remove rootfs mount point \x27" ++
        "/r" ++ "\x27: " ++ "ENOTEMPTY") "/r" ∧
      strContains ("Failed to remove rootfs mount point \x27" ++
        "/r" ++ "\x27: " ++ "ENOTEMPTY") "ENOTEMPTY") :=
  failure_messages_paths_and_causes envMkdirFail envBindFail envRemountFail
    envTableFail envUnmountFail envRmdirFail "/l" "/r"
    "EACCES" "ENOENT" "EBUSY" "EIO" "EBUSY" "ENOTEMPTY" ⟨"/r"⟩ ⟨"/r"⟩
    rfl rfl rfl rfl rfl rfl rfl rfl rfl rfl rfl rfl rfl rfl

/-- C7: `create` succeeds and hands out a backend (whose executor is
spawned at construction) exactly when the resolved user is `root`; when
the user query errs, resolves to nothing, or names another user, it
returns an error with a readable cause and constructs no backend. -/
theorem create_requires_root :
    create (OsUserResult.some "root") = Except.ok ⟨⟨⟩⟩ ∧
    (∀ u, u ≠ "root" → create (OsUserResult.some u) =
      Except.error "BindBackend requires root privileges") ∧
    create OsUserResult.none =
      Except.error ("Failed to determine user: " ++ "username not found") ∧
    ∀ e, create (OsUserResult.error e) =
      Except.error ("Failed to determine user: " ++ e) := by
  refine ⟨rfl, fun u hu => ?_, rfl, fun e => rfl⟩
  simp [create, hu]

/-- Witness: `create` for the non-root user `alice` is denied. -/
theorem create_requires_root_witness :
    create (OsUserResult.some "alice") =
      Except.error "BindBackend requires root privileges" :=
  create_requires_root.2.1 "alice" (by decide)

/-- C8: the executor machine runs dispatched operations one at a time in
submission order — its complete OS-action trace is exactly the
concatenation of each operation's trace, in queue order, with no
interleaving, regardless of which rootfs path each operation targets. -/
theorem serial_execution_no_interleaving (env : Env) :
    ∀ ops : List Op, runMachine env ops [] = (ops.map (runOp env)).flatten
  | [] => by simp [runMachine]
  | op :: ops => by
      conv_lhs => rw [runMachine]
      rw [runMachine_drain env ops (runOp env op),
        serial_execution_no_interleaving env ops]
      simp

end BindBackendSpec
